import Mathlib

/-!
# Invoice pricing/validation engine: shallow embedding

A shallow embedding of `src/invoice_service.py`.  Monetary amounts are
modelled as rationals (`ℚ`), Python strings as Lean `String`, the optional
coupon as `Option String`, and the `ValueError` raised on validation
failure as the `Except.error` branch of an `Except String` result.
Shipping-rule thresholds are `Option ℚ`, with `none` standing for the
Python `float("inf")` sentinel (every finite subtotal compares below it).
-/

namespace InvoiceService

/-- Decidable equality for `Except` results, so that concrete runs of the
engine can be checked by `decide`. -/
instance {ε α : Type} [DecidableEq ε] [DecidableEq α] : DecidableEq (Except ε α) := fun a b =>
  match a, b with
  | .error e, .error f =>
    if h : e = f then isTrue (by rw [h]) else isFalse (fun hc => h (Except.error.inj hc))
  | .error _, .ok _ => isFalse (fun hc => Except.noConfusion hc)
  | .ok _, .error _ => isFalse (fun hc => Except.noConfusion hc)
  | .ok x, .ok y =>
    if h : x = y then isTrue (by rw [h]) else isFalse (fun hc => h (Except.ok.inj hc))

/-- The `LineItem` dataclass from the source. -/
structure LineItem where
  sku : String
  category : String
  unit_price : ℚ
  qty : ℤ
  fragile : Bool
deriving DecidableEq

/-- The `Invoice` dataclass from the source. -/
structure Invoice where
  invoice_id : String
  customer_id : String
  country : String
  membership : String
  coupon : Option String
  items : List LineItem
deriving DecidableEq

/-- Source constant `VALID_CATEGORIES = {"book", "food", "electronics", "other"}`. -/
def VALID_CATEGORIES : List String := ["book", "food", "electronics", "other"]

/-- Source constant `SHIPPING_RULES`: country -> ordered list of (threshold, shipping_cost);
`none` as a threshold is the `float("inf")` entry. -/
def SHIPPING_RULES : List (String × List (Option ℚ × ℚ)) :=
  [("TH", [(some 500, 60), (none, 0)]),
   ("JP", [(some 4000, 600), (none, 0)]),
   ("US", [(some 100, 15), (some 300, 8), (none, 0)]),
   ("DEFAULT", [(some 200, 25), (none, 0)])]

/-- Source constant `TAX_RATES = {"TH": 0.07, "JP": 0.10, "US": 0.08}`. -/
def TAX_RATES : List (String × ℚ) :=
  [("TH", 7/100), ("JP", 10/100), ("US", 8/100)]

/-- Source constant `DEFAULT_TAX_RATE = 0.05`. -/
def DEFAULT_TAX_RATE : ℚ := 5/100

/-- Source constant `FRAGILE_FEE_PER_ITEM = 5.0`. -/
def FRAGILE_FEE_PER_ITEM : ℚ := 5

/-- Python `dict.get(key)` over an association list (the literal order of
the source's dict entries): the value at the first matching key, `none`
when the key is absent. -/
def dict_get {α : Type} (key : String) : List (String × α) → Option α
  | [] => none
  | (k, v) :: rest => if key = k then some v else dict_get key rest

/-- Python's `str.strip()`: drop whitespace from both ends.  Implemented
structurally over the character list so that it evaluates by kernel
reduction (Lean's own `String.trim` is extensionally the same but is
defined by well-founded recursion on byte positions). -/
def strip (s : String) : String :=
  ⟨(((s.data.dropWhile Char.isWhitespace).reverse.dropWhile Char.isWhitespace).reverse)⟩

/-- The `self._coupon_rate` table built in `__init__`. -/
def coupon_rate : List (String × ℚ) :=
  [("WELCOME10", 10/100), ("VIP20", 20/100), ("STUDENT5", 5/100)]

/-- Source method `_validate_item`: per-item problems, in source order
(sku, qty, price, category).  Python truthiness `not it.sku` on a string
is the empty-string test. -/
def validate_item (it : LineItem) : List String :=
  (if it.sku = "" then ["Item sku is missing"] else []) ++
  (if it.qty ≤ 0 then ["Invalid qty for " ++ it.sku] else []) ++
  (if it.unit_price < 0 then ["Invalid price for " ++ it.sku] else []) ++
  (if it.category ∈ VALID_CATEGORIES then [] else ["Unknown category for " ++ it.sku])

/-- Source method `_validate` on a (non-`None`) invoice: invoice-level problems, then the
item problems in item order.  `not inv.items` is the empty-list test. -/
def validate (inv : Invoice) : List String :=
  (if inv.invoice_id = "" then ["Missing invoice_id"] else []) ++
  (if inv.customer_id = "" then ["Missing customer_id"] else []) ++
  (if inv.items = [] then ["Invoice must contain items"] else []) ++
  (inv.items.map validate_item).flatten

/-- Source method `_compute_subtotal_and_fragile_fee`: one pass over the items,
accumulating the subtotal and the fragile fee. -/
def compute_subtotal_and_fragile_fee (items : List LineItem) : ℚ × ℚ :=
  items.foldl
    (fun acc it =>
      (acc.1 + it.unit_price * (it.qty : ℚ),
       acc.2 + if it.fragile then FRAGILE_FEE_PER_ITEM * (it.qty : ℚ) else 0))
    (0, 0)

/-- One shipping pair matches when `subtotal < threshold`; the infinite
threshold (`none`) matches every subtotal. -/
def threshold_matches (subtotal : ℚ) (threshold : Option ℚ) : Bool :=
  match threshold with
  | none => true
  | some t => subtotal < t

/-- The `for threshold, cost in rules` scan of `_compute_shipping`:
first pair whose threshold strictly exceeds the subtotal; `none` when the
scan falls off the end of the list. -/
def scan_rules (subtotal : ℚ) : List (Option ℚ × ℚ) → Option ℚ
  | [] => none
  | (t, c) :: rest =>
    if threshold_matches subtotal t then some c else scan_rules subtotal rest

/-- Source expression `self.SHIPPING_RULES.get(country, self.SHIPPING_RULES["DEFAULT"])`. -/
def shipping_rules_for (country : String) : List (Option ℚ × ℚ) :=
  (dict_get country SHIPPING_RULES).getD ((dict_get "DEFAULT" SHIPPING_RULES).getD [])

/-- Source method `_compute_shipping`: scan the country's table, `0.0` fallback if the
scan finds no pair. -/
def compute_shipping (country : String) (subtotal : ℚ) : ℚ :=
  (scan_rules subtotal (shipping_rules_for country)).getD 0

/-- Source method `_membership_discount`. -/
def membership_discount (membership : String) (subtotal : ℚ) : ℚ :=
  if membership = "gold" then subtotal * (3/100)
  else if membership = "platinum" then subtotal * (5/100)
  else if subtotal > 3000 then 20 else 0

/-- Source method `_coupon_discount`: returns (discount, optional warning). -/
def coupon_discount (coupon : Option String) (subtotal : ℚ) : ℚ × Option String :=
  match coupon with
  | none => (0, none)
  | some c =>
    let code := strip c
    if code = "" then (0, none)
    else
      match dict_get code coupon_rate with
      | none => (0, some "Unknown coupon")
      | some rate => (subtotal * rate, none)

/-- Source method `_compute_discount`: membership discount plus coupon discount, carrying
the coupon warning through. -/
def compute_discount (inv : Invoice) (subtotal : ℚ) : ℚ × Option String :=
  (membership_discount inv.membership subtotal + (coupon_discount inv.coupon subtotal).1,
   (coupon_discount inv.coupon subtotal).2)

/-- Source expression `self.TAX_RATES.get(country, self.DEFAULT_TAX_RATE)`. -/
def tax_rate_for (country : String) : ℚ :=
  (dict_get country TAX_RATES).getD DEFAULT_TAX_RATE

/-- Source method `_compute_tax`. -/
def compute_tax (country : String) (taxable_base : ℚ) (discount : ℚ) : ℚ :=
  (taxable_base - discount) * tax_rate_for country

/-- Python's two-argument `max(a, b)`: returns `a` when `a >= b`, else `b`.
Stated with a plain `if` on the decidable order of `ℚ` so that concrete
totals evaluate by kernel reduction; `pymax_eq_max` relates it to `max`. -/
def pymax (a b : ℚ) : ℚ :=
  if b ≤ a then a else b

/-- Source method `_membership_warnings`. -/
def membership_warnings (membership : String) (subtotal : ℚ) : List String :=
  if 10000 < subtotal ∧ membership ≠ "gold" ∧ membership ≠ "platinum" then
    ["Consider membership upgrade"]
  else []

/-- Source method `compute_total`, the public entry point.  `Except.error` models the
`ValueError` raised on validation problems. -/
def compute_total (inv : Invoice) : Except String (ℚ × List String) :=
  if validate inv = [] then
    let sf := compute_subtotal_and_fragile_fee inv.items
    let shipping := compute_shipping inv.country sf.1
    let dw := compute_discount inv sf.1
    let tax := compute_tax inv.country sf.1 dw.1
    let total := pymax 0 (sf.1 + shipping + sf.2 + tax - dw.1)
    Except.ok (total, dw.2.toList ++ membership_warnings inv.membership sf.1)
  else
    Except.error (String.intercalate "; " (validate inv))

/-! ## Spec-side comparison definitions

These two definitions are written from the specification's wording (not
from the source) and are compared with the source-derived definitions in
the refinement theorems below. -/

/-- Spec wording, §6/§8: an item's own problems are reported in the order
sku, qty, price, category. -/
def item_problems_spec (it : LineItem) : List String :=
  (if it.sku = "" then ["Item sku is missing"] else []) ++
  (if it.qty ≤ 0 then ["Invalid qty for " ++ it.sku] else []) ++
  (if it.unit_price < 0 then ["Invalid price for " ++ it.sku] else []) ++
  (if it.category ∈ VALID_CATEGORIES then [] else ["Unknown category for " ++ it.sku])

/-- Spec wording, §6: validation problems in validation order:
invoice-level problems first (missing invoice_id, missing customer_id,
empty items), then item-level problems in item order. -/
def problems_spec_order (inv : Invoice) : List String :=
  ((if inv.invoice_id = "" then ["Missing invoice_id"] else []) ++
   (if inv.customer_id = "" then ["Missing customer_id"] else []) ++
   (if inv.items = [] then ["Invoice must contain items"] else [])) ++
  (inv.items.map item_problems_spec).flatten

/-- Spec wording, §4.3: the cost of the first pair whose threshold strictly
exceeds the subtotal, over the exact built-in tables
`TH: [(500,60),(∞,0)]`, `JP: [(4000,600),(∞,0)]`,
`US: [(100,15),(300,8),(∞,0)]`, `DEFAULT: [(200,25),(∞,0)]`, the
`DEFAULT` table serving every country other than TH, JP, US. -/
def shipping_spec_order (country : String) (subtotal : ℚ) : ℚ :=
  if country = "TH" then (if subtotal < 500 then 60 else 0)
  else if country = "JP" then (if subtotal < 4000 then 600 else 0)
  else if country = "US" then
    (if subtotal < 100 then 15 else if subtotal < 300 then 8 else 0)
  else (if subtotal < 200 then 25 else 0)

/-! ## Concrete invoices used by the closed-form checks -/

/-- Scenario 1 of the spec: US invoice, one non-fragile book at 50 × 2. -/
def scenario1_invoice : Invoice :=
  { invoice_id := "INV-1", customer_id := "CUST-1", country := "US",
    membership := "none", coupon := none,
    items := [{ sku := "BOOK-1", category := "book", unit_price := 50, qty := 2,
                fragile := false }] }

/-- A valid invoice carrying a known coupon code. -/
def coupon_invoice : Invoice :=
  { invoice_id := "INV-2", customer_id := "CUST-2", country := "US",
    membership := "none", coupon := some "WELCOME10",
    items := [{ sku := "BOOK-1", category := "book", unit_price := 50, qty := 2,
                fragile := false }] }

/-- A valid invoice whose subtotal exceeds 10000 and whose coupon is an
unknown code: both advisory warnings fire. -/
def big_invoice : Invoice :=
  { invoice_id := "INV-3", customer_id := "CUST-3", country := "JP",
    membership := "silver", coupon := some "BOGUS",
    items := [{ sku := "TV-1", category := "electronics", unit_price := 6000, qty := 2,
                fragile := true }] }

/-- Scenario 5 of the spec: an invoice missing `customer_id` whose only
item has `qty = 0`. -/
def invalid_invoice : Invoice :=
  { invoice_id := "INV-5", customer_id := "", country := "US",
    membership := "none", coupon := none,
    items := [{ sku := "X", category := "book", unit_price := 5, qty := 0,
                fragile := false }] }

/-- A valid invoice whose identifiers are whitespace-only (non-empty)
strings. -/
def whitespace_id_invoice : Invoice :=
  { invoice_id := " ", customer_id := "\t", country := "TH",
    membership := "gold", coupon := none,
    items := [{ sku := "FOOD-1", category := "food", unit_price := 10, qty := 1,
                fragile := false }] }

/-! ## General lemmas -/

theorem pymax_eq_max (a b : ℚ) : pymax a b = max a b := by
  unfold pymax
  rcases le_or_lt b a with h | h
  · rw [if_pos h, max_eq_left h]
  · rw [if_neg (not_le.mpr h), max_eq_right h.le]

theorem compute_total_eq_ok (inv : Invoice) (h : validate inv = []) :
    compute_total inv = Except.ok
      (pymax 0 ((compute_subtotal_and_fragile_fee inv.items).1 +
          compute_shipping inv.country (compute_subtotal_and_fragile_fee inv.items).1 +
          (compute_subtotal_and_fragile_fee inv.items).2 +
          compute_tax inv.country (compute_subtotal_and_fragile_fee inv.items).1
            (compute_discount inv (compute_subtotal_and_fragile_fee inv.items).1).1 -
          (compute_discount inv (compute_subtotal_and_fragile_fee inv.items).1).1),
        (compute_discount inv (compute_subtotal_and_fragile_fee inv.items).1).2.toList ++
          membership_warnings inv.membership (compute_subtotal_and_fragile_fee inv.items).1) := by
  unfold compute_total
  rw [if_pos h]

theorem compute_total_eq_error (inv : Invoice) (h : validate inv ≠ []) :
    compute_total inv = Except.error (String.intercalate "; " (validate inv)) := by
  unfold compute_total
  rw [if_neg h]

theorem scan_rules_append_none (s : ℚ) (pre : List (Option ℚ × ℚ)) (cost : ℚ) :
    ∃ c, scan_rules s (pre ++ [(none, cost)]) = some c := by
  induction pre with
  | nil => exact ⟨cost, by simp [scan_rules, threshold_matches]⟩
  | cons p rest ih =>
    rcases p with ⟨t, c0⟩
    by_cases hm : threshold_matches s t
    · exact ⟨c0, by simp [scan_rules, hm]⟩
    · rcases ih with ⟨c, hc⟩
      exact ⟨c, by simp [scan_rules, hm, hc]⟩

theorem shipping_rules_for_shape (country : String) :
    ∃ pre cost, shipping_rules_for country = pre ++ [(none, cost)] := by
  unfold shipping_rules_for
  simp +decide only [SHIPPING_RULES, dict_get, Option.getD_some]
  split_ifs <;>
    first
      | exact ⟨[(some 500, 60)], 0, rfl⟩
      | exact ⟨[(some 4000, 600)], 0, rfl⟩
      | exact ⟨[(some 100, 15), (some 300, 8)], 0, rfl⟩
      | exact ⟨[(some 200, 25)], 0, rfl⟩

/-! ## Claims -/

/-- C1: for every invoice that passes validation, `compute_total` returns a
total equal to `max(0, subtotal + shipping + fragileFee + tax - discount)`,
and in particular the returned total is nonnegative. -/
theorem total_clamped_nonneg (inv : Invoice) (h : validate inv = []) :
    ∃ t w, compute_total inv = Except.ok (t, w) ∧
      t = max 0 ((compute_subtotal_and_fragile_fee inv.items).1 +
          compute_shipping inv.country (compute_subtotal_and_fragile_fee inv.items).1 +
          (compute_subtotal_and_fragile_fee inv.items).2 +
          compute_tax inv.country (compute_subtotal_and_fragile_fee inv.items).1
            (compute_discount inv (compute_subtotal_and_fragile_fee inv.items).1).1 -
          (compute_discount inv (compute_subtotal_and_fragile_fee inv.items).1).1) ∧
      0 ≤ t := by
  refine ⟨_, _, compute_total_eq_ok inv h, pymax_eq_max 0 _, ?_⟩
  rw [pymax_eq_max]
  exact le_max_left 0 _

/-- C1 witness: the clamping statement instantiated at Scenario 1's
invoice. -/
theorem total_clamped_nonneg_check :
    validate scenario1_invoice = [] ∧
    ∃ t w, compute_total scenario1_invoice = Except.ok (t, w) ∧
      t = max 0 ((compute_subtotal_and_fragile_fee scenario1_invoice.items).1 +
          compute_shipping scenario1_invoice.country
            (compute_subtotal_and_fragile_fee scenario1_invoice.items).1 +
          (compute_subtotal_and_fragile_fee scenario1_invoice.items).2 +
          compute_tax scenario1_invoice.country
            (compute_subtotal_and_fragile_fee scenario1_invoice.items).1
            (compute_discount scenario1_invoice
              (compute_subtotal_and_fragile_fee scenario1_invoice.items).1).1 -
          (compute_discount scenario1_invoice
            (compute_subtotal_and_fragile_fee scenario1_invoice.items).1).1) ∧
      0 ≤ t :=
  ⟨by decide, total_clamped_nonneg scenario1_invoice (by decide)⟩

/-- C6: Scenario 1 (US, membership "none", no coupon, one non-fragile book
at 50 × 2) succeeds with subtotal 100, shipping 8, fragile fee 0,
discount 0, tax 8, total 116 and no warnings. -/
theorem scenario1_breakdown :
    compute_subtotal_and_fragile_fee scenario1_invoice.items = (100, 0) ∧
    compute_shipping scenario1_invoice.country 100 = 8 ∧
    (compute_discount scenario1_invoice 100).1 = 0 ∧
    compute_tax scenario1_invoice.country 100 0 = 8 ∧
    compute_total scenario1_invoice = Except.ok (116, []) := by
  refine ⟨?_, ?_, ?_, ?_, ?_⟩ <;>
    simp +decide only [compute_total, validate, validate_item, VALID_CATEGORIES,
      scenario1_invoice, compute_subtotal_and_fragile_fee, compute_shipping,
      shipping_rules_for, SHIPPING_RULES, scan_rules, threshold_matches,
      compute_discount, membership_discount, coupon_discount, compute_tax,
      tax_rate_for, TAX_RATES, DEFAULT_TAX_RATE, membership_warnings, pymax,
      dict_get, FRAGILE_FEE_PER_ITEM, List.foldl, List.map, List.flatten,
      List.append] <;>
    norm_num

/-- C8: under the built-in tables the scan of `_compute_shipping` always
matches some pair (the infinite-threshold entry at the latest), so the
final zero-cost fallback is unreachable: for every country and subtotal
the scan yields `some` cost and `compute_shipping` returns that cost. -/
theorem shipping_scan_never_falls_through (country : String) (subtotal : ℚ) :
    ∃ c, scan_rules subtotal (shipping_rules_for country) = some c ∧
      compute_shipping country subtotal = c := by
  obtain ⟨pre, cost, hshape⟩ := shipping_rules_for_shape country
  obtain ⟨c, hc⟩ := scan_rules_append_none subtotal pre cost
  have hscan : scan_rules subtotal (shipping_rules_for country) = some c := by
    rw [hshape]; exact hc
  exact ⟨c, hscan, by unfold compute_shipping; rw [hscan]; rfl⟩

/-- C3: for every country string and subtotal, `_compute_shipping` scans
the country's table (the `DEFAULT` table for countries other than TH, JP,
US) and returns the cost of the first pair whose threshold strictly
exceeds the subtotal, with the exact built-in tables of the spec
(`shipping_spec_order` is written from the spec's wording). -/
theorem shipping_matches_spec_tables (country : String) (subtotal : ℚ) :
    compute_shipping country subtotal = shipping_spec_order country subtotal := by
  unfold compute_shipping shipping_rules_for shipping_spec_order
  simp +decide only [SHIPPING_RULES, dict_get, Option.getD_some]
  split_ifs <;> simp_all [scan_rules, threshold_matches] <;> split_ifs <;>
    first | rfl | linarith

/-- C2: `compute_total` fails exactly when the validator's problem list is
non-empty, the failure message is the problems joined by "; ", no total is
produced alongside a failure, and the problem list is in the spec's
validation order (`problems_spec_order` is written from the spec's
wording: invoice-level problems first, then per item sku, qty, price,
category). -/
theorem validation_failure_semantics (inv : Invoice) :
    ((∃ e, compute_total inv = Except.error e) ↔ validate inv ≠ []) ∧
    (validate inv ≠ [] →
      compute_total inv = Except.error (String.intercalate "; " (validate inv))) ∧
    validate inv = problems_spec_order inv := by
  refine ⟨⟨?_, ?_⟩, compute_total_eq_error inv, rfl⟩
  · rintro ⟨e, he⟩ hnil
    rw [compute_total_eq_ok inv hnil] at he
    exact Except.noConfusion he
  · intro h
    exact ⟨_, compute_total_eq_error inv h⟩

/-- C2 witness: Scenario 5's invalid invoice fails with the two problem
messages joined by "; ". -/
theorem validation_failure_semantics_check :
    validate invalid_invoice ≠ [] ∧
    compute_total invalid_invoice =
      Except.error "Missing customer_id; Invalid qty for X" := by
  refine ⟨by decide, ?_⟩
  rw [(validation_failure_semantics invalid_invoice).2.1 (by decide)]
  decide

theorem coupon_warning_cases (c : Option String) (s : ℚ) :
    (coupon_discount c s).2 = none ∨
      (coupon_discount c s).2 = some "Unknown coupon" := by
  cases c with
  | none => exact Or.inl rfl
  | some c =>
    unfold coupon_discount
    by_cases h0 : strip c = ""
    · simp [h0]
    · simp only [if_neg h0]
      cases dict_get (strip c) coupon_rate <;> simp

theorem membership_warnings_cases (m : String) (s : ℚ) :
    membership_warnings m s = [] ∨
      membership_warnings m s = ["Consider membership upgrade"] := by
  unfold membership_warnings
  split_ifs <;> simp

/-- C4: the total discount is the membership discount plus the coupon
discount (uncapped); the membership discount is 3% of subtotal for gold,
5% for platinum, else a flat 20 exactly when subtotal > 3000; the coupon
discount is 0 with no warning for a missing/empty/whitespace-only coupon,
`rate * subtotal` for a trimmed code in the WELCOME10/VIP20/STUDENT5
table, and 0 with the "Unknown coupon" warning for any other non-empty
code. -/
theorem discount_resolution (inv : Invoice) (s : ℚ) :
    compute_discount inv s =
      (membership_discount inv.membership s + (coupon_discount inv.coupon s).1,
        (coupon_discount inv.coupon s).2) ∧
    membership_discount inv.membership s =
      (if inv.membership = "gold" then s * (3/100)
       else if inv.membership = "platinum" then s * (5/100)
       else if 3000 < s then 20 else 0) ∧
    coupon_discount inv.coupon s =
      (match inv.coupon with
       | none => (0, none)
       | some c =>
         if strip c = "" then (0, none)
         else if strip c = "WELCOME10" then (s * (10/100), none)
         else if strip c = "VIP20" then (s * (20/100), none)
         else if strip c = "STUDENT5" then (s * (5/100), none)
         else (0, some "Unknown coupon")) := by
  refine ⟨rfl, rfl, ?_⟩
  cases inv.coupon with
  | none => rfl
  | some c =>
    simp only [coupon_discount, coupon_rate, dict_get]
    split_ifs <;> simp_all

theorem compute_total_ok_validate (inv : Invoice) (t : ℚ) (w : List String)
    (h : compute_total inv = Except.ok (t, w)) : validate inv = [] := by
  by_contra hne
  rw [compute_total_eq_error inv hne] at h
  exact Except.noConfusion h

theorem compute_total_ok_warnings (inv : Invoice) (t : ℚ) (w : List String)
    (h : compute_total inv = Except.ok (t, w)) :
    w = (coupon_discount inv.coupon (compute_subtotal_and_fragile_fee inv.items).1).2.toList ++
      membership_warnings inv.membership (compute_subtotal_and_fragile_fee inv.items).1 := by
  have hv := compute_total_ok_validate inv t w h
  rw [compute_total_eq_ok inv hv] at h
  exact (congrArg Prod.snd (Except.ok.inj h)).symm

/-- C5: on every successful `compute_total` call, the
"Consider membership upgrade" warning is present iff subtotal > 10000 and
membership is neither gold nor platinum, and when both warnings occur the
"Unknown coupon" warning comes first. -/
theorem upgrade_warning_iff (inv : Invoice) (t : ℚ) (w : List String)
    (h : compute_total inv = Except.ok (t, w)) :
    ("Consider membership upgrade" ∈ w ↔
      10000 < (compute_subtotal_and_fragile_fee inv.items).1 ∧
        inv.membership ≠ "gold" ∧ inv.membership ≠ "platinum") ∧
    ("Unknown coupon" ∈ w ∧ "Consider membership upgrade" ∈ w →
      w = ["Unknown coupon", "Consider membership upgrade"]) := by
  have hw := compute_total_ok_warnings inv t w h
  subst hw
  rcases coupon_warning_cases inv.coupon (compute_subtotal_and_fragile_fee inv.items).1
    with hcw | hcw <;>
    rw [hcw] <;>
    by_cases hcond : 10000 < (compute_subtotal_and_fragile_fee inv.items).1 ∧
      inv.membership ≠ "gold" ∧ inv.membership ≠ "platinum" <;>
    simp +decide [membership_warnings, hcond]

/-- C10: on every successful `compute_total` call, the warnings list has
length at most 2, draws only from the two advisory strings, and repeats
neither. -/
theorem warnings_bounded (inv : Invoice) (t : ℚ) (w : List String)
    (h : compute_total inv = Except.ok (t, w)) :
    w.length ≤ 2 ∧
    (∀ x ∈ w, x = "Unknown coupon" ∨ x = "Consider membership upgrade") ∧
    w.count "Unknown coupon" ≤ 1 ∧
    w.count "Consider membership upgrade" ≤ 1 := by
  have hw := compute_total_ok_warnings inv t w h
  subst hw
  rcases coupon_warning_cases inv.coupon (compute_subtotal_and_fragile_fee inv.items).1
    with hcw | hcw <;>
    rcases membership_warnings_cases inv.membership
      (compute_subtotal_and_fragile_fee inv.items).1 with hmw | hmw <;>
    rw [hcw, hmw] <;>
    simp +decide [List.count_cons]

/-- C5 witness: the warning characterization instantiated at a run that
produces both warnings. -/
theorem upgrade_warning_iff_check :
    compute_total big_invoice =
      Except.ok (13188, ["Unknown coupon", "Consider membership upgrade"]) ∧
    (("Consider membership upgrade" ∈
        (["Unknown coupon", "Consider membership upgrade"] : List String) ↔
      10000 < (compute_subtotal_and_fragile_fee big_invoice.items).1 ∧
        big_invoice.membership ≠ "gold" ∧ big_invoice.membership ≠ "platinum") ∧
     ("Unknown coupon" ∈ (["Unknown coupon", "Consider membership upgrade"] : List String) ∧
        "Consider membership upgrade" ∈
          (["Unknown coupon", "Consider membership upgrade"] : List String) →
      (["Unknown coupon", "Consider membership upgrade"] : List String) =
        ["Unknown coupon", "Consider membership upgrade"])) := by
  have heval : compute_total big_invoice =
      Except.ok (13188, ["Unknown coupon", "Consider membership upgrade"]) := by
    simp +decide only [compute_total, validate, validate_item, VALID_CATEGORIES,
      big_invoice, compute_subtotal_and_fragile_fee, compute_shipping,
      shipping_rules_for, SHIPPING_RULES, scan_rules, threshold_matches,
      compute_discount, membership_discount, coupon_discount, compute_tax,
      tax_rate_for, TAX_RATES, DEFAULT_TAX_RATE, membership_warnings, pymax,
      dict_get, FRAGILE_FEE_PER_ITEM, List.foldl, List.map, List.flatten,
      List.append, strip]
    norm_num
  exact ⟨heval, upgrade_warning_iff big_invoice 13188 _ heval⟩

/-- C10 witness: the warning bounds instantiated at a run that produces
both warnings. -/
theorem warnings_bounded_check :
    compute_total big_invoice =
      Except.ok (13188, ["Unknown coupon", "Consider membership upgrade"]) ∧
    ((["Unknown coupon", "Consider membership upgrade"] : List String).length ≤ 2 ∧
     (∀ x ∈ (["Unknown coupon", "Consider membership upgrade"] : List String),
        x = "Unknown coupon" ∨ x = "Consider membership upgrade") ∧
     (["Unknown coupon", "Consider membership upgrade"] : List String).count
        "Unknown coupon" ≤ 1 ∧
     (["Unknown coupon", "Consider membership upgrade"] : List String).count
        "Consider membership upgrade" ≤ 1) := by
  have heval : compute_total big_invoice =
      Except.ok (13188, ["Unknown coupon", "Consider membership upgrade"]) := by
    simp +decide only [compute_total, validate, validate_item, VALID_CATEGORIES,
      big_invoice, compute_subtotal_and_fragile_fee, compute_shipping,
      shipping_rules_for, SHIPPING_RULES, scan_rules, threshold_matches,
      compute_discount, membership_discount, coupon_discount, compute_tax,
      tax_rate_for, TAX_RATES, DEFAULT_TAX_RATE, membership_warnings, pymax,
      dict_get, FRAGILE_FEE_PER_ITEM, List.foldl, List.map, List.flatten,
      List.append, strip]
    norm_num
  exact ⟨heval, warnings_bounded big_invoice 13188 _ heval⟩

theorem string_ne_append_of_head_ne (msg pre suf : String)
    (h : msg.data.head? ≠ (pre.data ++ suf.data).head?) : msg ≠ pre ++ suf :=
  fun he => h ((congrArg (fun s => String.data s |>.head?) he).trans
    (congrArg List.head? (String.data_append pre suf)))

theorem mem_validate_item_shapes (x : String) (it : LineItem)
    (hx : x ∈ validate_item it) :
    x = "Item sku is missing" ∨ x = "Invalid qty for " ++ it.sku ∨
    x = "Invalid price for " ++ it.sku ∨ x = "Unknown category for " ++ it.sku := by
  unfold validate_item at hx
  split_ifs at hx <;> simp_all <;> tauto

theorem validate_mem_shapes (x : String) (inv : Invoice) (hx : x ∈ validate inv) :
    (x = "Missing invoice_id" ∧ inv.invoice_id = "") ∨
    (x = "Missing customer_id" ∧ inv.customer_id = "") ∨
    x = "Invoice must contain items" ∨
    ∃ it ∈ inv.items, x ∈ validate_item it := by
  unfold validate at hx
  simp only [List.mem_append, List.mem_flatten, List.mem_map] at hx
  split_ifs at hx <;> simp_all <;> tauto

/-- C9: the validator flags `invoice_id`/`customer_id` as missing only
when they are the empty string; a non-empty (e.g. whitespace-only)
identifier is never flagged, so such an invoice can pass validation. -/
theorem missing_id_flag_only_for_empty (inv : Invoice) :
    (inv.invoice_id ≠ "" → "Missing invoice_id" ∉ validate inv) ∧
    (inv.customer_id ≠ "" → "Missing customer_id" ∉ validate inv) := by
  constructor <;> intro hne hmem <;>
    rcases validate_mem_shapes _ inv hmem with ⟨hx, hempty⟩ | ⟨hx, hempty⟩ | hx |
      ⟨it, _, hit⟩ <;>
    first
      | exact hne hempty
      | exact absurd hx (by decide)
      | rcases mem_validate_item_shapes _ it hit with hx | hx | hx | hx <;>
        first
          | exact absurd hx (by decide)
          | exact absurd hx (string_ne_append_of_head_ne _ _ _
              (fun he => absurd (Option.some.inj he) (by decide)))

/-- C9 witness: an invoice whose identifiers are whitespace-only is not
flagged for missing identifiers, and indeed passes validation. -/
theorem missing_id_flag_only_for_empty_check :
    whitespace_id_invoice.invoice_id ≠ "" ∧
    whitespace_id_invoice.customer_id ≠ "" ∧
    "Missing invoice_id" ∉ validate whitespace_id_invoice ∧
    "Missing customer_id" ∉ validate whitespace_id_invoice ∧
    validate whitespace_id_invoice = [] :=
  ⟨by decide, by decide,
   (missing_id_flag_only_for_empty whitespace_id_invoice).1 (by decide),
   (missing_id_flag_only_for_empty whitespace_id_invoice).2 (by decide),
   by decide⟩

theorem tax_rate_pos (country : String) : 0 < tax_rate_for country := by
  unfold tax_rate_for
  simp only [TAX_RATES, dict_get]
  split_ifs <;> norm_num [Option.getD_some, Option.getD_none, DEFAULT_TAX_RATE]

theorem shipping_nonneg (country : String) (s : ℚ) :
    0 ≤ compute_shipping country s := by
  unfold compute_shipping shipping_rules_for
  simp +decide only [SHIPPING_RULES, dict_get, Option.getD_some]
  split_ifs <;> simp [scan_rules, threshold_matches] <;> split_ifs <;> norm_num

theorem membership_discount_cases (m : String) (s : ℚ) :
    membership_discount m s = s * (3/100) ∨ membership_discount m s = s * (5/100) ∨
      (membership_discount m s = 20 ∧ 3000 < s) ∨ membership_discount m s = 0 := by
  unfold membership_discount
  split_ifs <;> tauto

theorem validate_nil_item_valid (inv : Invoice) (h : validate inv = []) :
    ∀ it ∈ inv.items, validate_item it = [] := by
  intro it hit
  unfold validate at h
  rcases List.append_eq_nil.mp h with ⟨-, h4⟩
  exact List.flatten_eq_nil_iff.mp h4 _ (List.mem_map_of_mem _ hit)

theorem validate_item_nil_qty (it : LineItem) (h : validate_item it = []) :
    0 < it.qty := by
  by_contra hq
  have hq' : it.qty ≤ 0 := not_lt.mp hq
  unfold validate_item at h
  simp [hq'] at h

theorem subfee_fold_mono (items : List LineItem) (hq : ∀ it ∈ items, 0 < it.qty) :
    ∀ a : ℚ × ℚ,
      a.2 ≤ (items.foldl (fun acc it =>
        (acc.1 + it.unit_price * (it.qty : ℚ),
         acc.2 + if it.fragile then FRAGILE_FEE_PER_ITEM * (it.qty : ℚ) else 0)) a).2 := by
  induction items with
  | nil => intro a; exact le_refl _
  | cons it rest ih =>
    intro a
    rw [List.foldl_cons]
    refine le_trans ?_ (ih (fun x hx => hq x (List.mem_cons_of_mem _ hx)) _)
    have hqt : (0:ℚ) ≤ (it.qty : ℚ) := by
      exact_mod_cast (hq it (List.mem_cons_self _ _)).le
    dsimp only
    split_ifs
    · exact le_add_of_nonneg_right
        (mul_nonneg (by norm_num [FRAGILE_FEE_PER_ITEM]) hqt)
    · simp

theorem fragile_fee_nonneg (items : List LineItem)
    (hq : ∀ it ∈ items, 0 < it.qty) :
    0 ≤ (compute_subtotal_and_fragile_fee items).2 := by
  unfold compute_subtotal_and_fragile_fee
  exact subfee_fold_mono items hq (0, 0)

theorem total_reduction_arith (s ship ff m r cd : ℚ)
    (hs : 0 < s) (hship : 0 ≤ ship) (hff : 0 ≤ ff) (hr : 0 < r)
    (hm : m = s * (3/100) ∨ m = s * (5/100) ∨ (m = 20 ∧ 3000 < s) ∨ m = 0)
    (hcd : 0 < cd) :
    pymax 0 (s + ship + ff + (s - (m + cd)) * r - (m + cd)) <
      pymax 0 (s + ship + ff + (s - m) * r - m) := by
  have hsm : 0 < s - m := by
    rcases hm with h | h | ⟨h, h3⟩ | h <;> subst h <;> linarith
  have hX2 : 0 < s + ship + ff + (s - m) * r - m := by
    have h1 : 0 < (s - m) * (1 + r) := mul_pos hsm (by linarith)
    have hexp : s + ship + ff + (s - m) * r - m = (s - m) * (1 + r) + ship + ff := by
      ring
    rw [hexp]
    linarith
  have hXlt : s + ship + ff + (s - (m + cd)) * r - (m + cd) <
      s + ship + ff + (s - m) * r - m := by
    have h2 : 0 < cd * (1 + r) := mul_pos hcd (by linarith)
    have hexp : s + ship + ff + (s - (m + cd)) * r - (m + cd) =
        (s + ship + ff + (s - m) * r - m) - cd * (1 + r) := by ring
    rw [hexp]
    linarith
  unfold pymax
  split_ifs <;> linarith

/-- C7: for every valid invoice with positive subtotal carrying one of the
known coupon codes, the total is strictly smaller than the total of the
identical invoice with no coupon. -/
theorem known_coupon_strictly_reduces_total (inv : Invoice) (c : String)
    (hv : validate inv = [])
    (hs : 0 < (compute_subtotal_and_fragile_fee inv.items).1)
    (hc : inv.coupon = some c)
    (hk : c = "WELCOME10" ∨ c = "VIP20" ∨ c = "STUDENT5") :
    ∃ t w t2 w2,
      compute_total inv = Except.ok (t, w) ∧
      compute_total { inv with coupon := none } = Except.ok (t2, w2) ∧
      t < t2 := by
  have hv2 : validate { inv with coupon := none } = [] := hv
  have hitems : ({ inv with coupon := none } : Invoice).items = inv.items := rfl
  have hcountry : ({ inv with coupon := none } : Invoice).country = inv.country := rfl
  have hmem : ({ inv with coupon := none } : Invoice).membership = inv.membership := rfl
  have e1 := compute_total_eq_ok inv hv
  have e2 := compute_total_eq_ok { inv with coupon := none } hv2
  rw [hitems, hcountry, hmem] at e2
  have hd2 : compute_discount { inv with coupon := none }
      (compute_subtotal_and_fragile_fee inv.items).1 =
      (membership_discount inv.membership
        (compute_subtotal_and_fragile_fee inv.items).1, none) := by
    simp [compute_discount, coupon_discount]
  rw [hd2] at e2
  obtain ⟨cr, hcr, hcd1⟩ : ∃ cr : ℚ, 0 < cr ∧
      (coupon_discount inv.coupon (compute_subtotal_and_fragile_fee inv.items).1).1 =
        (compute_subtotal_and_fragile_fee inv.items).1 * cr := by
    rcases hk with h | h | h <;> rw [hc, h]
    · exact ⟨10/100, by norm_num,
        by simp +decide [coupon_discount, dict_get, coupon_rate]⟩
    · exact ⟨20/100, by norm_num,
        by simp +decide [coupon_discount, dict_get, coupon_rate]⟩
    · exact ⟨5/100, by norm_num,
        by simp +decide [coupon_discount, dict_get, coupon_rate]⟩
  have hd1 : compute_discount inv (compute_subtotal_and_fragile_fee inv.items).1 =
      (membership_discount inv.membership (compute_subtotal_and_fragile_fee inv.items).1 +
        (compute_subtotal_and_fragile_fee inv.items).1 * cr,
       (coupon_discount inv.coupon (compute_subtotal_and_fragile_fee inv.items).1).2) := by
    unfold compute_discount
    rw [hcd1]
  rw [hd1] at e1
  have hff : 0 ≤ (compute_subtotal_and_fragile_fee inv.items).2 :=
    fragile_fee_nonneg inv.items
      (fun it hit => validate_item_nil_qty it (validate_nil_item_valid inv hv it hit))
  refine ⟨_, _, _, _, e1, e2, ?_⟩
  simp only [compute_tax]
  exact total_reduction_arith _ _ _ _ _ _ hs (shipping_nonneg _ _) hff
    (tax_rate_pos _) (membership_discount_cases _ _) (mul_pos hs hcr)

/-- C7 witness: the coupon-reduction statement instantiated at a valid
invoice carrying WELCOME10. -/
theorem known_coupon_strictly_reduces_total_check :
    validate coupon_invoice = [] ∧
    0 < (compute_subtotal_and_fragile_fee coupon_invoice.items).1 ∧
    coupon_invoice.coupon = some "WELCOME10" ∧
    ∃ t w t2 w2,
      compute_total coupon_invoice = Except.ok (t, w) ∧
      compute_total { coupon_invoice with coupon := none } = Except.ok (t2, w2) ∧
      t < t2 := by
  have hs : 0 < (compute_subtotal_and_fragile_fee coupon_invoice.items).1 := by
    simp only [coupon_invoice, compute_subtotal_and_fragile_fee, List.foldl]
    norm_num
  exact ⟨by decide, hs, rfl,
    known_coupon_strictly_reduces_total coupon_invoice "WELCOME10" (by decide) hs rfl
      (Or.inl rfl)⟩

end InvoiceService
